import Mathlib

/-!
Shallow embedding of the packj risk-assessment pipeline (src/main.py).

Python dictionaries are modelled as insertion-ordered association lists
(`List (String × α)`): assignment to an existing key replaces the value in
place, assignment to a fresh key appends at the end, exactly as CPython
dicts behave. External collaborators (package-registry proxy, static
analyzer, network and date utilities) are passed in as `Except`-valued
oracles; a Python exception raised by a collaborator is the `.error` case.
Each stage function of main.py wraps its body in try/except/finally and
always returns the `(risks, report)` pair, so every stage is embedded as a
total Lean function returning that pair.
-/

namespace Packj

/-- Lookup in an insertion-ordered association list (Python `d[k]` / `k in d`). -/
def lookupD {α : Type} (k : String) : List (String × α) → Option α
  | [] => none
  | (k', v) :: rest => if k' = k then some v else lookupD k rest

/-- Python dict assignment `d[k] = v`: replace in place if the key exists,
otherwise append the new binding at the end. -/
def dinsert {α : Type} (k : String) (v : α) : List (String × α) → List (String × α)
  | [] => [(k, v)]
  | (k', v') :: rest => if k' = k then (k, v) :: rest else (k', v') :: dinsert k v rest

/-- Python truthiness of an optional string: `None` and the empty string are falsy. -/
def pyFalsyOS : Option String → Bool
  | none => true
  | some s => s.isEmpty

/-- Threat model: mapping from alert type to risk category (main.py get_threat_model). -/
abbrev TM := List (String × String)

/-- The risks accumulator: risk category mapped to the ordered list of messages. -/
abbrev Risks := List (String × List String)

/-- Messages recorded so far under one risk category. -/
def msgsOf (cat : String) (risks : Risks) : List String :=
  (lookupD cat risks).getD []

/-- Version metadata dictionary (the fields of `ver_info` that main.py reads).
`uploaded = none` models the `uploaded` key being absent (KeyError),
`some none` models a null value, `some (some s)` a string value.
`url = none` models the `url` key being absent. -/
structure VerInfo where
  uploaded : Option (Option String)
  url : Option String
deriving DecidableEq

/-- One entry of the release history dictionary. The outer `Option` models the
`days_since_last_release` key being absent (KeyError), the inner one a null value. -/
structure RelEntry where
  days_since_last_release : Option (Option Int)
deriving DecidableEq

/-- Release history: version string mapped to its release entry. -/
abbrev ReleaseHistory := List (String × RelEntry)

/-- Author metadata dictionary; `email = none` models a missing or null email. -/
structure AuthorInfo where
  email : Option String
deriving DecidableEq

/-- One vulnerability record returned by the OSV lookup. -/
structure Vuln where
  id : String
deriving DecidableEq

/-- Result of `__parse_url`: only the scheme field is consumed by main.py. -/
structure ParsedUrl where
  scheme : String
deriving DecidableEq

/-- Values stored in the report dictionary, one constructor per section payload. -/
inductive ReportVal where
  | ver : VerInfo → ReportVal
  | releases : ReleaseHistory → ReportVal
  | author : AuthorInfo → ReportVal
  | homepage : Option String → ReportVal
  | repo : Option String → ReportVal
  | vulns : List Vuln → ReportVal
  | perms : List (String × List String) → ReportVal
  | risksVal : Option Risks → ReportVal
deriving DecidableEq

/-- The report dictionary: section name mapped to its fragment. -/
abbrev Report := List (String × ReportVal)

/-- Embedding of main.py alert_user (lines 31-37): look the alert type up in the
threat model; absent types are silently dropped; otherwise append
`alert_type ++ ": " ++ reason` to the category message list, creating the
category entry if absent. -/
def alert_user (alert_type : String) (threat_model : TM) (reason : String)
    (risks : Risks) : Risks :=
  match lookupD alert_type threat_model with
  | none => risks
  | some risk_cat =>
    dinsert risk_cat ((lookupD risk_cat risks).getD [] ++ [alert_type ++ ": " ++ reason]) risks

/-- Embedding of analyze_version (main.py lines 72-96). `datetime_delta` is the
external date utility; `ver_info = none` models a falsy `ver_info` argument
(the `assert ver_info` failure). A missing `uploaded` key raises KeyError,
re-raised as a parse error: the stage fails with no change. -/
def analyze_version (threat_model : TM) (datetime_delta : Option String → Except String Int)
    (ver_info : Option VerInfo) (risks : Risks) (report : Report) : Risks × Report :=
  match ver_info with
  | none => (risks, report)
  | some vi =>
    match vi.uploaded with
    | none => (risks, report)
    | some uploaded =>
      match datetime_delta uploaded with
      | .error _ => (risks, report)
      | .ok days =>
        let risks' :=
          if pyFalsyOS uploaded = true ∨ days > 365 then
            alert_user "old package" threat_model
              (if pyFalsyOS uploaded = true then "no release date"
               else toString days ++ " days old") risks
          else risks
        (risks', dinsert "version" (ReportVal.ver vi) report)

/-- Embedding of analyze_release_history (main.py lines 39-70).
`get_release_history` is the package-manager proxy call; an empty history
fails the `assert release_history` check. The inner days lookup catches its
own exceptions (missing version key or missing days key) and continues, so
the releases fragment is still written. -/
def analyze_release_history (threat_model : TM) (get_release_history : Except String ReleaseHistory)
    (ver_str : String) (risks : Risks) (report : Report) : Risks × Report :=
  match get_release_history with
  | .error _ => (risks, report)
  | .ok release_history =>
    if release_history.isEmpty = true then (risks, report)
    else if release_history.length < 2 then
      let risks' := alert_user "few versions or releases" threat_model
        ("only " ++ toString release_history.length ++ " versions released") risks
      (risks', dinsert "releases" (ReportVal.releases release_history) report)
    else
      let risks' :=
        match lookupD ver_str release_history with
        | none => risks
        | some entry =>
          match entry.days_since_last_release with
          | none => risks
          | some none => risks
          | some (some days) =>
            if days ≠ 0 ∧ days > 180 then
              alert_user "version release after a long gap" threat_model
                ("version released after " ++ toString days ++ " days") risks
            else risks
      (risks', dinsert "releases" (ReportVal.releases release_history) report)

/-- Embedding of analyze_author (main.py lines 210-234). `get_author` is the
proxy call; `check_email_address` the external email validator returning
`(valid, valid_with_dns)`. -/
def analyze_author (threat_model : TM) (get_author : Except String (Option AuthorInfo))
    (check_email_address : Option String → Except String (Bool × Bool))
    (risks : Risks) (report : Report) : Risks × Report :=
  match get_author with
  | .error _ => (risks, report)
  | .ok none => (risks, report)
  | .ok (some author_info) =>
    match check_email_address author_info.email with
    | .error _ => (risks, report)
    | .ok vv =>
      let risks' :=
        if vv.1 = false ∨ vv.2 = false then
          alert_user "invalid or no author email (2FA not enabled)" threat_model
            (if pyFalsyOS author_info.email = true then "no email"
             else if vv.1 = false then "invalid author email"
             else "expired author email domain") risks
        else risks
      (risks', dinsert "author" (ReportVal.author author_info) report)

/-- Embedding of analyze_readme (main.py lines 196-208). The stage records an
alert for a missing or short description and writes no report fragment. When
the description is `None` the final OK print raises on `len(None)`, which the
outer handler catches; the returned pair is unchanged by that. -/
def analyze_readme (threat_model : TM) (get_description : Except String (Option String))
    (risks : Risks) (report : Report) : Risks × Report :=
  match get_description with
  | .error _ => (risks, report)
  | .ok descr =>
    let risks' :=
      if pyFalsyOS descr = true ∨ (descr.getD "").length < 100 then
        alert_user "no or insufficient readme" threat_model
          (if pyFalsyOS descr = true then "no description" else "insufficient description") risks
      else risks
    (risks', report)

/-- Embedding of analyze_homepage (main.py lines 130-162). Oracles:
`get_homepage` (proxy), `parse_url` (`__parse_url`), `check_site_exist`
returning `(valid, reason)`, and `check_domain_popular`. Alerts committed
before a failing call persist, since the Python code mutates `risks` in
place and the finally block returns it. -/
def analyze_homepage (threat_model : TM) (get_homepage : Except String (Option String))
    (parse_url : Option String → Except String ParsedUrl)
    (check_site_exist : Option String → Except String (Bool × String))
    (check_domain_popular : Option String → Except String Bool)
    (risks : Risks) (report : Report) : Risks × Report :=
  match get_homepage with
  | .error _ => (risks, report)
  | .ok url =>
    let risks1 :=
      if pyFalsyOS url = true then
        alert_user "invalid or no homepage" threat_model "no homepage" risks
      else risks
    match parse_url url with
    | .error _ => (risks1, report)
    | .ok ret =>
      let risks2 :=
        if ret.scheme ≠ "https" then
          alert_user "invalid or no homepage" threat_model "insecure webpage" risks1
        else risks1
      match check_site_exist url with
      | .error _ => (risks2, report)
      | .ok vs =>
        if vs.1 = false then
          let risks3 := alert_user "invalid or no homepage" threat_model vs.2 risks2
          (risks3, dinsert "homepage" (ReportVal.homepage url) report)
        else
          match check_domain_popular url with
          | .error _ => (risks2, report)
          | .ok popular =>
            let risks3 :=
              if popular = true then
                alert_user "invalid or no homepage" threat_model "invalid (popular) webpage" risks2
              else risks2
            (risks3, dinsert "homepage" (ReportVal.homepage url) report)

/-- Embedding of analyze_downloads (main.py lines 116-128); writes no report fragment. -/
def analyze_downloads (threat_model : TM) (get_downloads : Except String Int)
    (risks : Risks) (report : Report) : Risks × Report :=
  match get_downloads with
  | .error _ => (risks, report)
  | .ok ret =>
    let risks' :=
      if ret < 1000 then
        alert_user "few downloads" threat_model
          ("only " ++ toString ret ++ " weekly downloads") risks
      else risks
    (risks', report)

/-- Allow-listed hosting forges (main.py line 167). -/
def popular_hosting_services : List String :=
  ["https://github.com/", "https://gitlab.com/", "git+https://github.com/", "git://github.com/"]

/-- Python `s.startswith(tuple(popular_hosting_services))`, computed on the
character lists of the strings. -/
def startsWithAny (s : String) : Bool :=
  popular_hosting_services.any (fun u => List.isPrefixOf u.toList s.toList)

/-- Python `s.strip(c)`: remove every leading and trailing occurrence of the character. -/
def pyStrip (c : Char) (s : String) : String :=
  String.mk (((s.toList.dropWhile (fun a => a = c)).reverse.dropWhile (fun a => a = c)).reverse)

/-- Embedding of analyze_repo (main.py lines 164-194). The repository link falls
back to the homepage and then the download URL, each accepted only when it
starts with an allow-listed forge; a denylist of placeholder repositories is
checked last. The fallback proxy calls can themselves raise. -/
def analyze_repo (threat_model : TM) (get_repo : Except String (Option String))
    (get_homepage : Except String (Option String))
    (get_download_url : Except String (Option String))
    (risks : Risks) (report : Report) : Risks × Report :=
  match get_repo with
  | .error _ => (risks, report)
  | .ok repo0 =>
    let step1 : Except String (Option String) :=
      if pyFalsyOS repo0 = true then
        match get_homepage with
        | .error e => .error e
        | .ok h =>
          if pyFalsyOS h = true ∨ startsWithAny (h.getD "") = false then .ok none else .ok h
      else .ok repo0
    match step1 with
    | .error _ => (risks, report)
    | .ok repo1 =>
      let step2 : Except String (Option String) :=
        if pyFalsyOS repo1 = true then
          match get_download_url with
          | .error e => .error e
          | .ok d =>
            if pyFalsyOS d = true ∨ startsWithAny (d.getD "") = false then .ok none else .ok d
        else .ok repo1
      match step2 with
      | .error _ => (risks, report)
      | .ok repo2 =>
        let risks' :=
          if pyFalsyOS repo2 = true then
            alert_user "invalid or no source repo" threat_model "no source repo found" risks
          else if startsWithAny (repo2.getD "") = false then
            alert_user "invalid or no source repo" threat_model
              ("invalid source repo " ++ repo2.getD "") risks
          else if pyStrip '/' (repo2.getD "") = "https://github.com/pypa/sampleproject" ∨
              pyStrip '/' (repo2.getD "") = "https://github.com/kubernetes/kubernetes" then
            alert_user "invalid or no source repo" threat_model
              ("invalid source repo " ++ repo2.getD "") risks
          else risks
        (risks', dinsert "repo" (ReportVal.repo repo2) report)

/-- Embedding of analyze_cves (main.py lines 98-114). A null result from the OSV
lookup and an empty list are both replaced by the empty list before the
fragment is written. -/
def analyze_cves (threat_model : TM) (get_pkgver_vulns : Except String (List Vuln))
    (risks : Risks) (report : Report) : Risks × Report :=
  match get_pkgver_vulns with
  | .error _ => (risks, report)
  | .ok vuln_list =>
    let risks' :=
      if vuln_list.isEmpty = false then
        alert_user "contains known vulnerablities (CVEs)" threat_model
          ("contains " ++ String.intercalate "," (vuln_list.map (fun v => v.id))) risks
      else risks
    (risks', dinsert "vulnerabilities" (ReportVal.vulns vuln_list) report)

/-- Python dict update `report_data[reason] = usage` / `report_data[reason] += usage`
from main.py lines 309-312: create the key or concatenate onto the existing payload. -/
def rd_add (reason : String) (usage : List String)
    (rd : List (String × List String)) : List (String × List String) :=
  match lookupD reason rd with
  | none => rd ++ [(reason, usage)]
  | some prev => dinsert reason (prev ++ usage) rd

/-- One iteration of the tag-classification loop of analyze_apis (main.py lines
262-312), transcribed branch for branch. Line 279 tests substring membership
(`p in "SINK_CODE_GENERATION"`), and line 283 tests the truthiness of the
string literal itself (`elif "SINK_PROCESS_OPERATION":`), which is always
true, so every branch below it is unreachable; the final fallthrough case can
therefore never occur. -/
def apis_loop_body (threat_model : TM) (acc : Risks × List (String × List String))
    (pu : String × List String) : Risks × List (String × List String) :=
  let p := pu.1
  let usage := pu.2
  let ar : String × String :=
    if p = "SOURCE_FILE" then
      ("accesses files and dirs", "reads files and dirs")
    else if p = "SINK_FILE" then
      ("accesses files and dirs", "writes to files and dirs")
    else if p = "SINK_NETWORK" then
      ("communicates with external network", "sends data over the network %s")
    else if p = "SOURCE_NETWORK" then
      ("communicates with external network", "fetches data over the network")
    else if List.IsInfix p.toList (String.toList "SINK_CODE_GENERATION") then
      ("generates new code at runtime", "generates new code at runtime")
    else if String.isEmpty "SINK_PROCESS_OPERATION" = false then
      ("generates new code at runtime", "spawns new processes in background")
    else if p = "SOURCE_OBFUSCATION" then
      ("accesses obfuscated (hidden) code", "reads hidden code")
    else if p = "SOURCE_SETTINGS" then
      ("accesses system/environment variables", "reads system settings or environment variables")
    else if p = "SINK_UNCLASSIFIED" then
      ("changes system/environment variables", "modifies system settings or environment variables")
    else if p = "SOURCE_ACCOUNT" then
      ("changes system/environment variables", "modifies system settings or environment variables")
    else if p = "SOURCE_USER_INPUT" then
      ("reads user input", "reads user input")
    else
      ("", "")
  (alert_user ar.1 threat_model ar.2 acc.1, rd_add ar.2 usage acc.2)

/-- Embedding of analyze_apis (main.py lines 236-319). Oracles: `astgen` (the
static analyzer invocation), `out_exists` (the output-file existence check)
and `parse_result` (parse_api_usage). An unsupported package manager, a
failed or missing analysis output, and an empty usage record all fail the
stage with no change. -/
def analyze_apis (threat_model : TM) (pm_name : String) (astgen : Except String Unit)
    (out_exists : Bool) (parse_result : Except String (List (String × List String)))
    (risks : Risks) (report : Report) : Risks × Report :=
  if pm_name ≠ "pypi" ∧ pm_name ≠ "npm" then (risks, report)
  else
    match astgen with
    | .error _ => (risks, report)
    | .ok _ =>
      if out_exists = false then (risks, report)
      else
        match parse_result with
        | .error _ => (risks, report)
        | .ok perms =>
          if perms.isEmpty = true then (risks, report)
          else
            let res := perms.foldl (apis_loop_body threat_model) (risks, [])
            (res.1, dinsert "permissions" (ReportVal.perms res.2) report)

/-- Names of the pipeline stages, in the order main.py invokes them
(lines 370-377 and line 390). -/
inductive StageName where
  | version | release_history | author | readme | homepage | downloads | repo | cves | apis
deriving DecidableEq

/-- The stage invocation order of main.py lines 370-377 and 390. -/
def pipeline_order : List StageName :=
  [StageName.version, StageName.release_history, StageName.author, StageName.readme,
   StageName.homepage, StageName.downloads, StageName.repo, StageName.cves, StageName.apis]

/-- Bundle of all external collaborator outcomes consumed by one run. -/
structure Oracles where
  ver_info : VerInfo
  datetime_delta : Option String → Except String Int
  get_release_history : Except String ReleaseHistory
  get_author : Except String (Option AuthorInfo)
  check_email_address : Option String → Except String (Bool × Bool)
  get_description : Except String (Option String)
  get_homepage : Except String (Option String)
  parse_url : Option String → Except String ParsedUrl
  check_site_exist : Option String → Except String (Bool × String)
  check_domain_popular : Option String → Except String Bool
  get_downloads : Except String Int
  get_repo : Except String (Option String)
  get_download_url : Except String (Option String)
  get_pkgver_vulns : Except String (List Vuln)
  astgen : Except String Unit
  out_exists : Bool
  parse_api_usage : Except String (List (String × List String))

/-- The metadata stages of main.py lines 370-377, threaded in source order. -/
def analyze_all (threat_model : TM) (ver_str : String) (o : Oracles)
    (risks : Risks) (report : Report) : Risks × Report :=
  let rr := analyze_version threat_model o.datetime_delta (some o.ver_info) risks report
  let rr := analyze_release_history threat_model o.get_release_history ver_str rr.1 rr.2
  let rr := analyze_author threat_model o.get_author o.check_email_address rr.1 rr.2
  let rr := analyze_readme threat_model o.get_description rr.1 rr.2
  let rr := analyze_homepage threat_model o.get_homepage o.parse_url o.check_site_exist
    o.check_domain_popular rr.1 rr.2
  let rr := analyze_downloads threat_model o.get_downloads rr.1 rr.2
  let rr := analyze_repo threat_model o.get_repo o.get_homepage o.get_download_url rr.1 rr.2
  analyze_cves threat_model o.get_pkgver_vulns rr.1 rr.2

/-- Uncaught runtime failure of the main block: reading the local `filepath`
when the download try-block never bound it (main.py line 389). -/
inductive MainErr where
  | nameError
deriving DecidableEq

/-- Report finalization of main.py lines 392-400: the risks section is null when
no risks were recorded, otherwise the accumulated mapping. -/
def finalize_report (risks : Risks) (report : Report) : Report :=
  if risks.length = 0 then dinsert "risks" (ReportVal.risksVal none) report
  else dinsert "risks" (ReportVal.risksVal (some risks)) report

/-- Embedding of main.py lines 379-400: the package download, the conditional
static API stage and the report finalization. The local `filepath` is bound
only when `download_file(ver_info[url])` returns normally; when the URL key
is missing or the download raises, the except branch only prints, leaving
`filepath` unbound, and the subsequent `if filepath:` raises NameError, so
the run aborts before the report is written. -/
def main_download_and_report (threat_model : TM) (pm_name : String) (ver_info : VerInfo)
    (download_file : String → Except String (String × Nat)) (astgen : Except String Unit)
    (out_exists : Bool) (parse_result : Except String (List (String × List String)))
    (risks : Risks) (report : Report) : Except MainErr (Risks × Report) :=
  let filepath? : Option String :=
    match ver_info.url with
    | none => none
    | some u =>
      match download_file u with
      | .error _ => none
      | .ok fs => some fs.1
  match filepath? with
  | none => Except.error MainErr.nameError
  | some filepath =>
    let rr :=
      if filepath.isEmpty = false then
        analyze_apis threat_model pm_name astgen out_exists parse_result risks report
      else (risks, report)
    Except.ok (rr.1, finalize_report rr.1 rr.2)

/-- Whole run after setup: the metadata stages of lines 370-377 followed by the
download, API stage and finalization of lines 379-400. -/
def main_run (threat_model : TM) (pm_name ver_str : String) (o : Oracles)
    (download_file : String → Except String (String × Nat)) : Except MainErr (Risks × Report) :=
  let rr := analyze_all threat_model ver_str o [] []
  main_download_and_report threat_model pm_name o.ver_info download_file o.astgen
    o.out_exists o.parse_api_usage rr.1 rr.2

/-- Model of calling one stage twice with no explicit `risks`/`report` arguments.
The Python stage signatures use `risks={}, report={}`: the default dictionaries
are created once at function definition time and mutated in place by the body,
so the second default call starts from the objects the first call returned. -/
def callWithDefaults (stage : Risks → Report → Risks × Report) :
    (Risks × Report) × (Risks × Report) :=
  let first := stage [] []
  let second := stage first.1 first.2
  (first, second)

/-! Dictionary lemmas. -/

theorem lookupD_dinsert_self {α : Type} (k : String) (v : α) (l : List (String × α)) :
    lookupD k (dinsert k v l) = some v := by
  induction l with
  | nil => simp [dinsert, lookupD]
  | cons hd tl ih =>
    by_cases h : hd.1 = k
    · simp [dinsert, h, lookupD]
    · simp [dinsert, h, lookupD, ih]

theorem lookupD_dinsert_of_ne {α : Type} {k k' : String} (v : α) (l : List (String × α))
    (h : k ≠ k') : lookupD k (dinsert k' v l) = lookupD k l := by
  have h' : ¬ (k' = k) := fun e => h e.symm
  induction l with
  | nil => simp [dinsert, lookupD, h']
  | cons hd tl ih =>
    obtain ⟨a, b⟩ := hd
    by_cases hh : a = k'
    · subst hh
      simp [dinsert, lookupD, h']
    · by_cases hk : a = k
      · simp [dinsert, lookupD, hh, hk, h, lookupD_dinsert_self]
      · simp [dinsert, lookupD, hh, hk, h, ih]

theorem lookupD_append_of_some {α : Type} {k : String} {v : α} {l1 : List (String × α)}
    (l2 : List (String × α)) (h : lookupD k l1 = some v) :
    lookupD k (l1 ++ l2) = some v := by
  induction l1 with
  | nil => simp [lookupD] at h
  | cons hd tl ih =>
    by_cases hh : hd.1 = k
    · simp [lookupD, hh] at h ⊢; exact h
    · simp [lookupD, hh] at h ⊢; exact ih h

theorem lookupD_append_of_none {α : Type} {k : String} {l1 : List (String × α)}
    (l2 : List (String × α)) (h : lookupD k l1 = none) :
    lookupD k (l1 ++ l2) = lookupD k l2 := by
  induction l1 with
  | nil => simp
  | cons hd tl ih =>
    by_cases hh : hd.1 = k
    · simp [lookupD, hh] at h
    · simp [lookupD, hh] at h ⊢; exact ih h

/-! alert_user lemmas. -/

theorem alert_user_of_none {t : String} {tm : TM} (r : String) (risks : Risks)
    (h : lookupD t tm = none) : alert_user t tm r risks = risks := by
  simp [alert_user, h]

theorem alert_user_msgs_of_some {t cat : String} {tm : TM} (r : String) (risks : Risks)
    (h : lookupD t tm = some cat) :
    msgsOf cat (alert_user t tm r risks) = msgsOf cat risks ++ [t ++ ": " ++ r] := by
  simp [alert_user, h, msgsOf, lookupD_dinsert_self]

theorem alert_user_msgs_of_other {t cat c : String} {tm : TM} (r : String) (risks : Risks)
    (h : lookupD t tm = some c) (hne : cat ≠ c) :
    msgsOf cat (alert_user t tm r risks) = msgsOf cat risks := by
  simp [alert_user, h, msgsOf, lookupD_dinsert_of_ne _ _ hne]

theorem alert_user_mem_mono {m cat : String} {risks : Risks} (t : String) (tm : TM) (r : String)
    (h : m ∈ msgsOf cat risks) : m ∈ msgsOf cat (alert_user t tm r risks) := by
  cases htm : lookupD t tm with
  | none => rw [alert_user_of_none r risks htm]; exact h
  | some c =>
    by_cases hc : cat = c
    · subst hc
      rw [alert_user_msgs_of_some r risks htm]
      exact List.mem_append_left _ h
    · rw [alert_user_msgs_of_other r risks htm hc]; exact h

theorem alert_user_mem_self {t cat : String} {tm : TM} (r : String) (risks : Risks)
    (h : lookupD t tm = some cat) :
    (t ++ ": " ++ r) ∈ msgsOf cat (alert_user t tm r risks) := by
  rw [alert_user_msgs_of_some r risks h]
  exact List.mem_append_right _ (List.mem_singleton.mpr rfl)

/-- Claim C5: alert_user is a no-op when the alert type is absent from the
threat model; otherwise it appends `alert_type ++ ": " ++ reason` to the
message list of the configured category, creating the category entry if
absent; recording the same pair twice appends two entries in order, with no
deduplication. -/
theorem C5_alert_user_contract (t reason : String) (tm : TM) (risks : Risks) :
    (lookupD t tm = none → alert_user t tm reason risks = risks) ∧
    (∀ cat, lookupD t tm = some cat →
      lookupD cat (alert_user t tm reason risks) =
        some ((lookupD cat risks).getD [] ++ [t ++ ": " ++ reason]) ∧
      (lookupD cat risks = none →
        lookupD cat (alert_user t tm reason risks) = some [t ++ ": " ++ reason]) ∧
      lookupD cat (alert_user t tm reason (alert_user t tm reason risks)) =
        some ((lookupD cat risks).getD [] ++ [t ++ ": " ++ reason, t ++ ": " ++ reason])) := by
  constructor
  · intro h; exact alert_user_of_none reason risks h
  · intro cat h
    have h1 : lookupD cat (alert_user t tm reason risks) =
        some ((lookupD cat risks).getD [] ++ [t ++ ": " ++ reason]) := by
      simp [alert_user, h, lookupD_dinsert_self]
    refine ⟨h1, ?_, ?_⟩
    · intro h0; rw [h1, h0]; rfl
    · have h2 : lookupD cat (alert_user t tm reason (alert_user t tm reason risks)) =
          some ((lookupD cat (alert_user t tm reason risks)).getD [] ++ [t ++ ": " ++ reason]) := by
        simp [alert_user, h, lookupD_dinsert_self]
      rw [h2, h1]
      simp

/-- Witness for C5 at concrete inputs: an unmapped alert type is dropped, a
mapped one creates the category with one message, and a repeated recording
yields two ordered copies. -/
theorem C5_alert_user_contract_witness :
    alert_user "zz" [("few downloads", "undesirable")] "r" [("c", ["m"])] = [("c", ["m"])] ∧
    lookupD "undesirable" (alert_user "few downloads" [("few downloads", "undesirable")] "r" []) =
      some ["few downloads: r"] ∧
    lookupD "undesirable" (alert_user "few downloads" [("few downloads", "undesirable")] "r"
        (alert_user "few downloads" [("few downloads", "undesirable")] "r" [])) =
      some ["few downloads: r", "few downloads: r"] := by
  refine ⟨(C5_alert_user_contract "zz" "r" [("few downloads", "undesirable")] [("c", ["m"])]).1 (by decide),
    ((C5_alert_user_contract "few downloads" "r" [("few downloads", "undesirable")] []).2
      "undesirable" (by decide)).2.1 (by decide), ?_⟩
  have h := ((C5_alert_user_contract "few downloads" "r" [("few downloads", "undesirable")] []).2
    "undesirable" (by decide)).2.2
  simpa using h

/-! Lemmas about the permissions report accumulator of analyze_apis. -/

theorem rd_add_lookup_self (r : String) (u : List String) (rd : List (String × List String)) :
    (lookupD r (rd_add r u rd)).isSome = true := by
  cases h : lookupD r rd with
  | none => simp [rd_add, h, lookupD_append_of_none _ h, lookupD]
  | some prev => simp [rd_add, h, lookupD_dinsert_self]

theorem rd_add_lookup_mono {k : String} {rd : List (String × List String)}
    (r : String) (u : List String) (h : (lookupD k rd).isSome = true) :
    (lookupD k (rd_add r u rd)).isSome = true := by
  by_cases hk : k = r
  · subst hk; exact rd_add_lookup_self k u rd
  · cases hr : lookupD r rd with
    | none =>
      obtain ⟨v, hv⟩ := Option.isSome_iff_exists.mp h
      simp [rd_add, hr, lookupD_append_of_some _ hv]
    | some prev =>
      simp [rd_add, hr, lookupD_dinsert_of_ne _ _ hk, h]

theorem apis_loop_body_preserves {cat m : String} {rk : String} (tm : TM)
    (acc : Risks × List (String × List String)) (pu : String × List String)
    (h1 : m ∈ msgsOf cat acc.1) (h2 : (lookupD rk acc.2).isSome = true) :
    m ∈ msgsOf cat (apis_loop_body tm acc pu).1 ∧
      (lookupD rk (apis_loop_body tm acc pu).2).isSome = true := by
  exact ⟨alert_user_mem_mono _ tm _ h1, rd_add_lookup_mono _ _ h2⟩

theorem apis_loop_body_sink_network (tm : TM) (acc : Risks × List (String × List String))
    (u : List String) :
    apis_loop_body tm acc ("SINK_NETWORK", u) =
      (alert_user "communicates with external network" tm "sends data over the network %s" acc.1,
       rd_add "sends data over the network %s" u acc.2) := by
  rfl

theorem apis_fold_preserves {cat m rk : String} (tm : TM) (perms : List (String × List String))
    (acc : Risks × List (String × List String))
    (h1 : m ∈ msgsOf cat acc.1) (h2 : (lookupD rk acc.2).isSome = true) :
    m ∈ msgsOf cat (perms.foldl (apis_loop_body tm) acc).1 ∧
      (lookupD rk (perms.foldl (apis_loop_body tm) acc).2).isSome = true := by
  induction perms generalizing acc with
  | nil => exact ⟨h1, h2⟩
  | cons hd tl ih =>
    have := apis_loop_body_preserves tm acc hd h1 h2
    exact ih _ this.1 this.2

theorem apis_fold_sink_network {cat : String} {tm : TM} {u : List String}
    (perms : List (String × List String)) (acc : Risks × List (String × List String))
    (hmem : ("SINK_NETWORK", u) ∈ perms)
    (htm : lookupD "communicates with external network" tm = some cat) :
    ("communicates with external network" ++ ": " ++ "sends data over the network %s") ∈
        msgsOf cat (perms.foldl (apis_loop_body tm) acc).1 ∧
      (lookupD "sends data over the network %s"
        (perms.foldl (apis_loop_body tm) acc).2).isSome = true := by
  induction perms generalizing acc with
  | nil => cases hmem
  | cons hd tl ih =>
    rcases List.mem_cons.mp hmem with he | hmem'
    · subst he
      rw [List.foldl_cons, apis_loop_body_sink_network]
      exact apis_fold_preserves tm tl _
        (alert_user_mem_self _ _ htm) (rd_add_lookup_self _ _ _)
    · exact ih _ hmem'

/-- Claim C10: whenever the parsed usage record contains the SINK_NETWORK tag,
analyze_apis records the literal message
`communicates with external network: sends data over the network %s` and the
permissions fragment is keyed by the literal string
`sends data over the network %s`; the placeholder is never substituted. -/
theorem C10_sink_network_placeholder (tm : TM) (perms : List (String × List String))
    (u : List String) (cat : String) (risks : Risks) (report : Report)
    (hmem : ("SINK_NETWORK", u) ∈ perms)
    (htm : lookupD "communicates with external network" tm = some cat) :
    ("communicates with external network: sends data over the network %s") ∈
        msgsOf cat (analyze_apis tm "pypi" (Except.ok ()) true (Except.ok perms) risks report).1 ∧
      ∃ rd, lookupD "permissions"
          (analyze_apis tm "pypi" (Except.ok ()) true (Except.ok perms) risks report).2 =
            some (ReportVal.perms rd) ∧
        (lookupD "sends data over the network %s" rd).isSome = true := by
  have hne : perms.isEmpty = false := by
    cases perms with
    | nil => cases hmem
    | cons hd tl => rfl
  have hfold := apis_fold_sink_network perms (risks, ([] : List (String × List String))) hmem htm
  constructor
  · simpa [analyze_apis, hne] using hfold.1
  · refine ⟨(perms.foldl (apis_loop_body tm) (risks, [])).2, ?_, hfold.2⟩
    simp [analyze_apis, hne, lookupD_dinsert_self]

/-- Witness for C10 on a concrete usage record containing SINK_NETWORK. -/
theorem C10_sink_network_placeholder_witness :
    ("communicates with external network: sends data over the network %s") ∈
        msgsOf "spread" (analyze_apis [("communicates with external network", "spread")] "pypi"
          (Except.ok ()) true (Except.ok [("SINK_NETWORK", ["requests.post"])]) [] []).1 ∧
      ∃ rd, lookupD "permissions"
          (analyze_apis [("communicates with external network", "spread")] "pypi"
            (Except.ok ()) true (Except.ok [("SINK_NETWORK", ["requests.post"])]) [] []).2 =
            some (ReportVal.perms rd) ∧
        (lookupD "sends data over the network %s" rd).isSome = true :=
  C10_sink_network_placeholder [("communicates with external network", "spread")]
    [("SINK_NETWORK", ["requests.post"])] ["requests.post"] "spread" [] []
    (by decide) (by decide)

/-- Claim C4: analyze_version records an `old package` alert with reason
`no release date` whenever the upload date value is unknown (falsy), and with
reason `<days> days old` whenever the release is more than 365 days old; for
a known upload date at most 365 days old it records no alert, and in every
non-failing case it writes the version info to the `version` report section. -/
theorem C4_version_freshness (tm : TM) (dd : Option String → Except String Int)
    (vi : VerInfo) (u : Option String) (d : Int) (risks : Risks) (report : Report)
    (cat : String) :
    (vi.uploaded = some u → pyFalsyOS u = true → dd u = Except.ok d →
      analyze_version tm dd (some vi) risks report =
        (alert_user "old package" tm "no release date" risks,
         dinsert "version" (ReportVal.ver vi) report)) ∧
    (vi.uploaded = some u → pyFalsyOS u = false → dd u = Except.ok d → d > 365 →
      analyze_version tm dd (some vi) risks report =
        (alert_user "old package" tm (toString d ++ " days old") risks,
         dinsert "version" (ReportVal.ver vi) report)) ∧
    (vi.uploaded = some u → pyFalsyOS u = false → dd u = Except.ok d → d ≤ 365 →
      analyze_version tm dd (some vi) risks report =
        (risks, dinsert "version" (ReportVal.ver vi) report)) ∧
    (lookupD "old package" tm = some cat → vi.uploaded = some u → pyFalsyOS u = true →
      dd u = Except.ok d →
      ("old package: no release date") ∈
        msgsOf cat (analyze_version tm dd (some vi) risks report).1) := by
  refine ⟨?_, ?_, ?_, ?_⟩
  · intro hu hf hd
    simp [analyze_version, hu, hd, hf]
  · intro hu hf hd hgt
    simp [analyze_version, hu, hd, hf, hgt]
  · intro hu hf hd hle
    have : ¬ (d > 365) := by omega
    simp [analyze_version, hu, hd, hf, this]
  · intro htm hu hf hd
    have he : analyze_version tm dd (some vi) risks report =
        (alert_user "old package" tm "no release date" risks,
         dinsert "version" (ReportVal.ver vi) report) := by
      simp [analyze_version, hu, hd, hf]
    rw [he]
    exact alert_user_mem_self _ _ htm

/-- Witness for C4: a null upload date alerts with `no release date`, a
400-day-old release alerts with `400 days old`, and a 10-day-old release
records nothing while still writing the version fragment. -/
theorem C4_version_freshness_witness :
    analyze_version [("old package", "risky")] (fun _ => Except.ok 400)
        (some ⟨some none, none⟩) [] [] =
      (alert_user "old package" [("old package", "risky")] "no release date" [],
       dinsert "version" (ReportVal.ver ⟨some none, none⟩) []) ∧
    analyze_version [("old package", "risky")] (fun _ => Except.ok 400)
        (some ⟨some (some "2019-01-01"), none⟩) [] [] =
      (alert_user "old package" [("old package", "risky")] (toString (400 : Int) ++ " days old") [],
       dinsert "version" (ReportVal.ver ⟨some (some "2019-01-01"), none⟩) []) ∧
    analyze_version [("old package", "risky")] (fun _ => Except.ok 10)
        (some ⟨some (some "2025-12-01"), none⟩) [] [] =
      ([], dinsert "version" (ReportVal.ver ⟨some (some "2025-12-01"), none⟩) []) :=
  ⟨(C4_version_freshness [("old package", "risky")] (fun _ => Except.ok 400)
      ⟨some none, none⟩ none 400 [] [] "risky").1 rfl (by decide) rfl,
   (C4_version_freshness [("old package", "risky")] (fun _ => Except.ok 400)
      ⟨some (some "2019-01-01"), none⟩ (some "2019-01-01") 400 [] [] "risky").2.1 rfl
      (by decide) rfl (by decide),
   (C4_version_freshness [("old package", "risky")] (fun _ => Except.ok 10)
      ⟨some (some "2025-12-01"), none⟩ (some "2025-12-01") 10 [] [] "risky").2.2.1 rfl
      (by decide) rfl (by decide)⟩

theorem release_history_single_eq (tm : TM) (h : ReleaseHistory) (ver_str : String)
    (risks : Risks) (report : Report) (hlen : h.length = 1) :
    analyze_release_history tm (Except.ok h) ver_str risks report =
      (alert_user "few versions or releases" tm "only 1 versions released" risks,
       dinsert "releases" (ReportVal.releases h) report) := by
  have hne : h.isEmpty = false := by
    cases h with
    | nil => simp at hlen
    | cons a b => rfl
  have hlt : h.length < 2 := by omega
  have h1 : ("only " ++ toString (1 : Nat) ++ " versions released") =
      "only 1 versions released" := rfl
  rw [analyze_release_history]
  simp only [hne, hlen, hlt]
  norm_num
  rw [h1]

/-- Claim C6: for a non-empty release history with a single release,
analyze_release_history records the `few versions or releases` alert with
reason `only 1 versions released` and still writes the full history to the
`releases` fragment; with at least two releases and a gap above 180 days for
the analyzed version it records the `version release after a long gap` alert
instead. -/
theorem C6_release_history_cadence (tm : TM) (h : ReleaseHistory) (ver_str : String)
    (entry : RelEntry) (d : Int) (risks : Risks) (report : Report) (cat : String) :
    (h.length = 1 →
      analyze_release_history tm (Except.ok h) ver_str risks report =
        (alert_user "few versions or releases" tm "only 1 versions released" risks,
         dinsert "releases" (ReportVal.releases h) report)) ∧
    (lookupD "few versions or releases" tm = some cat → h.length = 1 →
      ("few versions or releases: only 1 versions released") ∈
        msgsOf cat (analyze_release_history tm (Except.ok h) ver_str risks report).1) ∧
    (2 ≤ h.length → lookupD ver_str h = some entry →
      entry.days_since_last_release = some (some d) → d > 180 →
      analyze_release_history tm (Except.ok h) ver_str risks report =
        (alert_user "version release after a long gap" tm
          ("version released after " ++ toString d ++ " days") risks,
         dinsert "releases" (ReportVal.releases h) report)) := by
  refine ⟨?_, ?_, ?_⟩
  · intro hlen
    exact release_history_single_eq tm h ver_str risks report hlen
  · intro htm hlen
    rw [release_history_single_eq tm h ver_str risks report hlen]
    exact alert_user_mem_self _ _ htm
  · intro hlen hlook hdays hgt
    have hne : h.isEmpty = false := by
      cases h with
      | nil => simp at hlen
      | cons a b => rfl
    have hlt : ¬ (h.length < 2) := by omega
    have hcond : d ≠ 0 ∧ d > 180 := ⟨by omega, hgt⟩
    rw [analyze_release_history]
    simp only [hne, hlt, hlook, hdays, hcond]
    simp [hcond.1, hcond.2]

/-- Witness for C6: a one-release history alerts and still writes the releases
fragment; a two-release history whose analyzed version follows a 200-day gap
records the long-gap alert. -/
theorem C6_release_history_cadence_witness :
    analyze_release_history [("few versions or releases", "risky")]
        (Except.ok [("1.0", ⟨some (some 10)⟩)]) "1.0" [] [] =
      (alert_user "few versions or releases" [("few versions or releases", "risky")]
        "only 1 versions released" [],
       dinsert "releases" (ReportVal.releases [("1.0", ⟨some (some 10)⟩)]) []) ∧
    analyze_release_history [("version release after a long gap", "risky")]
        (Except.ok [("1.0", ⟨some (some 5)⟩), ("2.0", ⟨some (some 200)⟩)]) "2.0" [] [] =
      (alert_user "version release after a long gap" [("version release after a long gap", "risky")]
        ("version released after " ++ toString (200 : Int) ++ " days") [],
       dinsert "releases"
        (ReportVal.releases [("1.0", ⟨some (some 5)⟩), ("2.0", ⟨some (some 200)⟩)]) []) :=
  ⟨(C6_release_history_cadence [("few versions or releases", "risky")]
      [("1.0", ⟨some (some 10)⟩)] "1.0" ⟨some (some 10)⟩ 10 [] [] "risky").1 (by decide),
   (C6_release_history_cadence [("version release after a long gap", "risky")]
      [("1.0", ⟨some (some 5)⟩), ("2.0", ⟨some (some 200)⟩)] "2.0" ⟨some (some 200)⟩ 200
      [] [] "risky").2.2 (by decide) (by decide) rfl (by decide)⟩

/-- Claim C7: when the homepage URL is present and parses with the `http`
scheme, analyze_homepage records the `invalid or no homepage` alert with
reason `insecure webpage`, whatever the reachability and popularity probes
return or raise. -/
theorem C7_insecure_homepage (tm : TM) (url : String)
    (parse_url : Option String → Except String ParsedUrl)
    (check_site_exist : Option String → Except String (Bool × String))
    (check_domain_popular : Option String → Except String Bool)
    (risks : Risks) (report : Report) (cat : String)
    (hurl : url ≠ "")
    (hparse : parse_url (some url) = Except.ok ⟨"http"⟩)
    (htm : lookupD "invalid or no homepage" tm = some cat) :
    ("invalid or no homepage: insecure webpage") ∈
      msgsOf cat (analyze_homepage tm (Except.ok (some url)) parse_url check_site_exist
        check_domain_popular risks report).1 := by
  have hf : pyFalsyOS (some url) = false := by
    cases hb : url.isEmpty with
    | false => simp [pyFalsyOS, hb]
    | true => exact absurd ((String.isEmpty_iff url).mp hb) hurl
  have hstr : ("invalid or no homepage" ++ ": " ++ "insecure webpage") =
      "invalid or no homepage: insecure webpage" := rfl
  have hmem : ("invalid or no homepage: insecure webpage") ∈
      msgsOf cat (alert_user "invalid or no homepage" tm "insecure webpage" risks) := by
    rw [← hstr]
    exact alert_user_mem_self _ _ htm
  cases hse : check_site_exist (some url) with
  | error e =>
    simpa [analyze_homepage, hparse, hf, hse] using hmem
  | ok vs =>
    cases hv : vs.1 with
    | false =>
      have := alert_user_mem_mono "invalid or no homepage" tm vs.2 hmem
      simpa [analyze_homepage, hparse, hf, hse, hv] using this
    | true =>
      cases hdp : check_domain_popular (some url) with
      | error e =>
        simpa [analyze_homepage, hparse, hf, hse, hv, hdp] using hmem
      | ok popular =>
        cases popular with
        | false =>
          simpa [analyze_homepage, hparse, hf, hse, hv, hdp] using hmem
        | true =>
          have := alert_user_mem_mono "invalid or no homepage" tm
            "invalid (popular) webpage" hmem
          simpa [analyze_homepage, hparse, hf, hse, hv, hdp] using this

/-- Witness for C7: a reachable, unpopular homepage served over http still
triggers the insecure-webpage alert. -/
theorem C7_insecure_homepage_witness :
    ("invalid or no homepage: insecure webpage") ∈
      msgsOf "risky" (analyze_homepage [("invalid or no homepage", "risky")]
        (Except.ok (some "http://pkg.example.com")) (fun _ => Except.ok ⟨"http"⟩)
        (fun _ => Except.ok (true, "")) (fun _ => Except.ok false) [] []).1 :=
  C7_insecure_homepage [("invalid or no homepage", "risky")] "http://pkg.example.com"
    (fun _ => Except.ok ⟨"http"⟩) (fun _ => Except.ok (true, "")) (fun _ => Except.ok false)
    [] [] "risky" (by decide) rfl (by decide)

/-- Claim C8: every stage function returns the `(risks, report)` pair for every
collaborator outcome; when a collaborator raises, the stage returns exactly
the state committed before the failure and adds nothing after it, so later
stages always run. One conjunct per stage covers the failing first
collaborator, and the final conjunct shows a failure after a committed alert
(missing homepage, then a failing URL parse) preserving exactly that alert. -/
theorem C8_stage_failure_isolation (tm : TM) (risks : Risks) (report : Report) (e : String)
    (dd : Option String → Except String Int) (vi : VerInfo) (u : Option String)
    (ver_str : String) (cem : Option String → Except String (Bool × Bool))
    (pu : Option String → Except String ParsedUrl)
    (cse : Option String → Except String (Bool × String))
    (cdp : Option String → Except String Bool) (pm_name : String) (oe : Bool) :
    analyze_version tm dd none risks report = (risks, report) ∧
    (vi.uploaded = none → analyze_version tm dd (some vi) risks report = (risks, report)) ∧
    (vi.uploaded = some u → dd u = Except.error e →
      analyze_version tm dd (some vi) risks report = (risks, report)) ∧
    analyze_release_history tm (Except.error e) ver_str risks report = (risks, report) ∧
    analyze_author tm (Except.error e) cem risks report = (risks, report) ∧
    analyze_readme tm (Except.error e) risks report = (risks, report) ∧
    analyze_homepage tm (Except.error e) pu cse cdp risks report = (risks, report) ∧
    analyze_downloads tm (Except.error e) risks report = (risks, report) ∧
    analyze_repo tm (Except.error e) (Except.error e) (Except.error e) risks report =
      (risks, report) ∧
    analyze_cves tm (Except.error e) risks report = (risks, report) ∧
    analyze_apis tm pm_name (Except.error e) oe (Except.error e) risks report =
      (risks, report) ∧
    (pu none = Except.error e →
      analyze_homepage tm (Except.ok none) pu cse cdp risks report =
        (alert_user "invalid or no homepage" tm "no homepage" risks, report)) := by
  refine ⟨rfl, ?_, ?_, rfl, rfl, rfl, rfl, rfl, rfl, rfl, ?_, ?_⟩
  · intro hu; simp [analyze_version, hu]
  · intro hu hd; simp [analyze_version, hu, hd]
  · by_cases hpm : pm_name ≠ "pypi" ∧ pm_name ≠ "npm"
    · simp [analyze_apis, hpm]
    · simp [analyze_apis, hpm]
  · intro hp
    simp [analyze_homepage, pyFalsyOS, hp]

/-- Witness for C8: each stage applied to a concretely failing collaborator, and
the partial-commit case of the homepage stage. -/
theorem C8_stage_failure_isolation_witness :
    analyze_version [] (fun _ => Except.ok 1) none [] [] = ([], []) ∧
    analyze_release_history [] (Except.error "no data!") "1.0" [] [] = ([], []) ∧
    analyze_readme [] (Except.error "timeout") [] [] = ([], []) ∧
    analyze_apis [] "pypi" (Except.error "parse error") true (Except.error "parse error")
      [] [] = ([], []) ∧
    analyze_homepage [("invalid or no homepage", "risky")] (Except.ok none)
        (fun _ => Except.error "url parse failed") (fun _ => Except.ok (true, ""))
        (fun _ => Except.ok false) [] [] =
      (alert_user "invalid or no homepage" [("invalid or no homepage", "risky")]
        "no homepage" [], []) := by
  have h := C8_stage_failure_isolation [] [] [] "no data!" (fun _ => Except.ok 1)
    ⟨none, none⟩ none "1.0" (fun _ => Except.ok (true, true))
    (fun _ => Except.error "url parse failed") (fun _ => Except.ok (true, ""))
    (fun _ => Except.ok false) "pypi" true
  have h2 := C8_stage_failure_isolation [("invalid or no homepage", "risky")] [] []
    "url parse failed" (fun _ => Except.ok 1) ⟨none, none⟩ none "1.0"
    (fun _ => Except.ok (true, true)) (fun _ => Except.error "url parse failed")
    (fun _ => Except.ok (true, "")) (fun _ => Except.ok false) "pypi" true
  have h3 := C8_stage_failure_isolation [] [] [] "timeout" (fun _ => Except.ok 1)
    ⟨none, none⟩ none "1.0" (fun _ => Except.ok (true, true))
    (fun _ => Except.error "url parse failed") (fun _ => Except.ok (true, ""))
    (fun _ => Except.ok false) "pypi" true
  have h4 := C8_stage_failure_isolation [] [] [] "parse error" (fun _ => Except.ok 1)
    ⟨none, none⟩ none "1.0" (fun _ => Except.ok (true, true))
    (fun _ => Except.error "url parse failed") (fun _ => Except.ok (true, ""))
    (fun _ => Except.ok false) "pypi" true
  exact ⟨h.1, h.2.2.2.1, h3.2.2.2.2.2.1, h4.2.2.2.2.2.2.2.2.2.2.1, h2.2.2.2.2.2.2.2.2.2.2.2 rfl⟩

/-- Claim C9: the stage signatures bind mutable dictionaries as default values
of `risks` and `report` (Python evaluates `risks={}, report={}` once, at
definition time, and alert_user mutates the dictionary in place), so a second
call without explicit arguments starts from the state the first call
produced: calling analyze_downloads twice with defaults duplicates the alert,
and the two calls return different risks for identical explicit arguments. -/
theorem C9_mutable_default_arguments :
    (callWithDefaults (fun r rep =>
        analyze_downloads [("few downloads", "undesirable")] (Except.ok 5) r rep)).1.1 =
      [("undesirable", ["few downloads: only 5 weekly downloads"])] ∧
    (callWithDefaults (fun r rep =>
        analyze_downloads [("few downloads", "undesirable")] (Except.ok 5) r rep)).2.1 =
      [("undesirable",
        ["few downloads: only 5 weekly downloads", "few downloads: only 5 weekly downloads"])] ∧
    (callWithDefaults (fun r rep =>
        analyze_downloads [("few downloads", "undesirable")] (Except.ok 5) r rep)).2.1 ≠
      (callWithDefaults (fun r rep =>
        analyze_downloads [("few downloads", "undesirable")] (Except.ok 5) r rep)).1.1 := by
  refine ⟨by decide, by decide, by decide⟩

/-- Threat model used to exercise the tag-classification branches. -/
def tm_c1 : TM :=
  [("accesses obfuscated (hidden) code", "obf_cat"),
   ("accesses system/environment variables", "env_cat"),
   ("reads user input", "input_cat"),
   ("generates new code at runtime", "gen_cat")]

/-- Claim C1 is violated by the code: because line 283 of main.py tests the
truthiness of the string literal `"SINK_PROCESS_OPERATION"` instead of
comparing it with the tag, every tag that reaches that branch is classified
as `generates new code at runtime`/`spawns new processes in background`; the
SOURCE_OBFUSCATION, SOURCE_SETTINGS and SOURCE_USER_INPUT branches are dead
code. On a record with exactly those three tags, analyze_apis records three
copies of the process-spawn message under the code-generation category,
records nothing under the categories their lookup-table rows configure, and
keys all three payloads to the single reason
`spawns new processes in background`. -/
theorem C1_dead_classification_branches :
    (analyze_apis tm_c1 "pypi" (Except.ok ()) true
        (Except.ok [("SOURCE_OBFUSCATION", ["pkg/a.py:3"]), ("SOURCE_SETTINGS", ["pkg/b.py:7"]),
          ("SOURCE_USER_INPUT", ["pkg/c.py:9"])]) [] []).1 =
      [("gen_cat",
        ["generates new code at runtime: spawns new processes in background",
         "generates new code at runtime: spawns new processes in background",
         "generates new code at runtime: spawns new processes in background"])] ∧
    (analyze_apis tm_c1 "pypi" (Except.ok ()) true
        (Except.ok [("SOURCE_OBFUSCATION", ["pkg/a.py:3"]), ("SOURCE_SETTINGS", ["pkg/b.py:7"]),
          ("SOURCE_USER_INPUT", ["pkg/c.py:9"])]) [] []).2 =
      [("permissions", ReportVal.perms
        [("spawns new processes in background", ["pkg/a.py:3", "pkg/b.py:7", "pkg/c.py:9"])])] := by
  constructor
  · decide
  · decide

/-- Claim C2 is violated by the code: when `download_file(ver_info[url])`
raises, or the `url` key is absent, the except branch of main.py lines
384-387 only prints a FAILED line and leaves the local `filepath` unbound, so
line 389 `if filepath:` raises an uncaught NameError: the run aborts with a
non-zero exit status and the report is never written. With a successful
download the run does complete and produce the report. -/
theorem C2_download_failure_crashes :
    main_download_and_report [] "pypi" ⟨some (some "2024-01-01"), some "https://pypi.org/p.tgz"⟩
        (fun _ => Except.error "connection reset") (Except.ok ()) true (Except.ok []) [] [] =
      Except.error MainErr.nameError ∧
    main_download_and_report [] "pypi" ⟨some (some "2024-01-01"), none⟩
        (fun _ => Except.error "connection reset") (Except.ok ()) true (Except.ok []) [] [] =
      Except.error MainErr.nameError ∧
    main_download_and_report [] "pypi" ⟨some (some "2024-01-01"), some "https://pypi.org/p.tgz"⟩
        (fun _ => Except.ok ("/tmp/p.tgz", 2048)) (Except.ok ()) true (Except.ok []) [] [] =
      Except.ok ([], [("risks", ReportVal.risksVal none)]) := by
  refine ⟨rfl, rfl, rfl⟩

/-- Threat model mapping the alert types of all nine stages to one category, so
that the order of the recorded messages exposes the stage execution order. -/
def tm_all : TM :=
  [("old package", "x"), ("few versions or releases", "x"),
   ("invalid or no author email (2FA not enabled)", "x"), ("no or insufficient readme", "x"),
   ("invalid or no homepage", "x"), ("few downloads", "x"), ("invalid or no source repo", "x"),
   ("contains known vulnerablities (CVEs)", "x"), ("communicates with external network", "x")]

/-- Collaborator outcomes that make every stage record exactly one alert. -/
def oracle_all : Oracles where
  ver_info := ⟨some (some "2019-01-01"), some "https://pypi.org/p.tgz"⟩
  datetime_delta := fun _ => Except.ok 400
  get_release_history := Except.ok [("1.0", ⟨some (some 10)⟩)]
  get_author := Except.ok (some ⟨some "a@b.c"⟩)
  check_email_address := fun _ => Except.ok (false, false)
  get_description := Except.ok none
  get_homepage := Except.ok (some "http://pkg.example.com")
  parse_url := fun _ => Except.ok ⟨"http"⟩
  check_site_exist := fun _ => Except.ok (true, "")
  check_domain_popular := fun _ => Except.ok false
  get_downloads := Except.ok 5
  get_repo := Except.ok none
  get_download_url := Except.ok none
  get_pkgver_vulns := Except.ok [⟨"CVE-2024-0001"⟩]
  astgen := Except.ok ()
  out_exists := true
  parse_api_usage := Except.ok [("SINK_NETWORK", ["requests.post"])]

/-- Claim C3 as stated is false: main.py lines 370-377 invoke
analyze_downloads before analyze_repo, so the source-repository validity
check does not run before the download-popularity check. -/
theorem C3_repo_before_downloads_counterexample :
    ¬ (pipeline_order.indexOf StageName.repo < pipeline_order.indexOf StageName.downloads) := by
  decide

/-- Claim C3 amended: the pipeline runs its stages strictly in the order
version freshness, release-history cadence, author identity, readme
completeness, homepage validity, download popularity, source-repository
validity, known-vulnerability lookup, static API-usage classification. On a
run in which every stage alerts into one category, the append-only message
list shows the nine alerts in exactly that order, the download-popularity
message strictly before the source-repository one. -/
theorem C3_stage_order_amended :
    pipeline_order.indexOf StageName.downloads < pipeline_order.indexOf StageName.repo ∧
    ∃ rr, main_run tm_all "pypi" "1.0" oracle_all (fun _ => Except.ok ("/tmp/p.tgz", 2048)) =
        Except.ok rr ∧
      msgsOf "x" rr.1 =
        ["old package: 400 days old",
         "few versions or releases: only 1 versions released",
         "invalid or no author email (2FA not enabled): invalid author email",
         "no or insufficient readme: no description",
         "invalid or no homepage: insecure webpage",
         "few downloads: only 5 weekly downloads",
         "invalid or no source repo: no source repo found",
         "contains known vulnerablities (CVEs): contains CVE-2024-0001",
         "communicates with external network: sends data over the network %s"] := by
  refine ⟨by decide, ?_⟩
  refine ⟨_, rfl, ?_⟩
  decide

end Packj
